import Mathlib

/-
Verification of the data-import synchronization engine
(src/data_import/*, src/models/imported_data.py).

The Python source is shallowly embedded: datetimes are rationals
(seconds since an arbitrary epoch), dictionaries become structures,
exceptions become explicit sum types, and the SQLAlchemy session
becomes explicit state passing over lists of rows.  Wall-clock
durations returned in result dictionaries are not modelled (they are
real time, not program logic); every other field of the result
dictionaries is.
-/

namespace DataImport

/-! ## Error taxonomy (src/data_import/exceptions.py)

The retry loop in BaseImporter distinguishes RateLimitError from every
other exception; that is the only distinction the embedded code needs,
so an error is either a rate-limit error or any other exception, each
carrying its message. -/

inductive ImpErr where
  | rateLimit (msg : String)
  | other (msg : String)
deriving DecidableEq, Repr

def ImpErr.message : ImpErr → String
  | .rateLimit m => m
  | .other m => m

/-! ## Fetch outcomes

One call to a concrete importer fetch_data either returns raw items
(modelled as opaque strings, the raw dicts), raises RateLimitError, or
raises any other exception.  The behaviour may depend on the attempt
number, which lets a single function model flaky services. -/

inductive FetchStep where
  | ok (items : List String)
  | rateLimited (msg : String)
  | fail (msg : String)
deriving DecidableEq, Repr

inductive RetryOutcome where
  | success (items : List String)
  | raised (e : ImpErr)
deriving DecidableEq, Repr

/-! ## BaseImporter._fetch_with_retry (src/data_import/base_importer.py lines 135-160)

The Python loop runs attempt = 0 .. max_retries; a RateLimitError with
attempt < max_retries sleeps 2 ** attempt * 60 seconds and retries, any
other exception with attempt < max_retries sleeps 2 ** attempt seconds
and retries, and at attempt = max_retries the original exception is
re-raised.  `remaining` counts the retries still allowed, so
remaining = max_retries - attempt and the guard attempt < max_retries
is remaining > 0.  The returned list records the sleeps performed, in
order.  (The `return []` after the Python loop is unreachable: every
iteration returns, raises, or continues, and the last one returns or
raises.) -/

def retryGo (fetch : Nat → FetchStep) : Nat → Nat → RetryOutcome × List Nat
  | attempt, remaining =>
    match fetch attempt with
    | .ok items => (.success items, [])
    | .rateLimited msg =>
      match remaining with
      | 0 => (.raised (.rateLimit msg), [])
      | r + 1 =>
        let rest := retryGo fetch (attempt + 1) r
        (rest.1, 2 ^ attempt * 60 :: rest.2)
    | .fail msg =>
      match remaining with
      | 0 => (.raised (.other msg), [])
      | r + 1 =>
        let rest := retryGo fetch (attempt + 1) r
        (rest.1, 2 ^ attempt :: rest.2)

def fetchWithRetry (fetch : Nat → FetchStep) (maxRetries : Nat) :
    RetryOutcome × List Nat :=
  retryGo fetch 0 maxRetries

/-! ## Normalized items (the dicts produced by transform_data)

Only the fields the sync engine reads when upserting are modelled;
raw_data is the opaque raw payload. -/

structure Item where
  external_id : String
  data_type : String
  title : Option String
  description : Option String
  state : Option String
  created_at : Option ℚ
  updated_at : Option ℚ
  raw_data : Option String
deriving DecidableEq, Repr

/-! ## The result dictionary of BaseImporter.sync

success, items_synced and message / error are the keys the Python dict
carries (duration, wall-clock time, is not modelled).  transformed_data
records whether the dict carries a transformed_data key: the sync
engine tests membership of that key before upserting.  BaseImporter.sync
never puts the key in the dict, so the embedding of sync always leaves
this field none. -/

structure SyncResult where
  success : Bool
  items_synced : Nat
  message : Option String
  error : Option String
  transformed_data : Option (List Item)
deriving DecidableEq, Repr

/-! ## Importer state (BaseImporter.__init__): last_sync_time and sync_stats -/

structure ImporterState where
  last_sync_time : Option ℚ
  total_synced : Nat
  errors : Nat
  last_error : Option String
deriving DecidableEq, Repr

def initialImporterState : ImporterState :=
  { last_sync_time := none, total_synced := 0, errors := 0, last_error := none }

/-! ## The abstract operations a concrete importer supplies

fetch_data may raise (per attempt), transform_data and store_data
either return or raise; a raised exception is an `Except.error` with
the exception message. -/

structure Behavior where
  fetch : Option ℚ → Nat → FetchStep
  transform : List String → Except String (List Item)
  store : List Item → Except String Nat

/-- since = None if full_sync else self.last_sync_time (base_importer.py line 89) -/
def syncSince (fullSync : Bool) (st : ImporterState) : Option ℚ :=
  if fullSync then none else st.last_sync_time

/-! ## BaseImporter.sync (src/data_import/base_importer.py lines 75-133)

Returns the result dictionary, the importer state after the call, and
the sleeps performed by the retry loop.  Every exception raised by
fetch (after retries), transform or store is caught by the except
block: errors += 1, last_error is set, and a failure dictionary is
returned; nothing propagates. -/

def syncImp (b : Behavior) (maxRetries : Nat) (st : ImporterState)
    (fullSync : Bool) (startTime : ℚ) :
    SyncResult × ImporterState × List Nat :=
  match fetchWithRetry (b.fetch (syncSince fullSync st)) maxRetries with
  | (.raised e, sleeps) =>
    ({ success := false, items_synced := 0, message := none,
       error := some e.message, transformed_data := none },
     { st with errors := st.errors + 1, last_error := some e.message },
     sleeps)
  | (.success raw, sleeps) =>
    if raw.isEmpty then
      ({ success := true, items_synced := 0,
         message := some "No new data to sync", error := none,
         transformed_data := none },
       st, sleeps)
    else
      match b.transform raw with
      | .error m =>
        ({ success := false, items_synced := 0, message := none,
           error := some m, transformed_data := none },
         { st with errors := st.errors + 1, last_error := some m },
         sleeps)
      | .ok items =>
        match b.store items with
        | .error m =>
          ({ success := false, items_synced := 0, message := none,
             error := some m, transformed_data := none },
           { st with errors := st.errors + 1, last_error := some m },
           sleeps)
        | .ok count =>
          ({ success := true, items_synced := count,
             message := some ("Successfully synced " ++ toString count ++ " items"),
             error := none, transformed_data := none },
           { st with last_sync_time := some startTime,
                     total_synced := st.total_synced + count },
           sleeps)

/-! ## Theorems: retry policy (C4) -/

theorem retryGo_rateLimited_persistent (msg : String) :
    ∀ (r a : Nat), retryGo (fun _ => FetchStep.rateLimited msg) a r =
      (RetryOutcome.raised (ImpErr.rateLimit msg),
       (List.range r).map fun i => 2 ^ (a + i) * 60)
  | 0, a => by simp [retryGo]
  | r + 1, a => by
    rw [retryGo]
    simp only [retryGo_rateLimited_persistent msg r (a + 1)]
    rw [List.range_succ_eq_map, List.map_cons, List.map_map]
    refine Prod.ext rfl ?_
    simp only [Nat.add_zero, Function.comp]
    refine congrArg₂ _ rfl (List.map_congr_left fun i _ => ?_)
    have hexp : a + 1 + i = a + Nat.succ i := by omega
    simp [hexp]

theorem retryGo_fail_persistent (msg : String) :
    ∀ (r a : Nat), retryGo (fun _ => FetchStep.fail msg) a r =
      (RetryOutcome.raised (ImpErr.other msg),
       (List.range r).map fun i => 2 ^ (a + i))
  | 0, a => by simp [retryGo]
  | r + 1, a => by
    rw [retryGo]
    simp only [retryGo_fail_persistent msg r (a + 1)]
    rw [List.range_succ_eq_map, List.map_cons, List.map_map]
    refine Prod.ext rfl ?_
    simp only [Nat.add_zero, Function.comp]
    refine congrArg₂ _ rfl (List.map_congr_left fun i _ => ?_)
    have hexp : a + 1 + i = a + Nat.succ i := by omega
    simp [hexp]

/-- C4.  The retry loop handles a rate-limit-classified error by retrying up
to max_retries additional times, sleeping 60 * 2 ^ attempt seconds before the
retry that runs attempt + 1, and any other exception by retrying up to
max_retries times sleeping 2 ^ attempt seconds; once the budget is exhausted
the original error is re-raised.  A persistently rate-limited fetch at
max_retries = 3 sleeps 60, 120, 240 seconds and then re-raises a rate-limit
error; a persistently failing fetch sleeps 1, 2, 4 seconds and re-raises the
original generic error. -/
theorem c4_retry_backoff (m : Nat) (msg : String) :
    (fetchWithRetry (fun _ => FetchStep.rateLimited msg) m =
      (RetryOutcome.raised (ImpErr.rateLimit msg),
       (List.range m).map fun a => 2 ^ a * 60)) ∧
    (fetchWithRetry (fun _ => FetchStep.fail msg) m =
      (RetryOutcome.raised (ImpErr.other msg),
       (List.range m).map fun a => 2 ^ a)) ∧
    (∀ (fetch : Nat → FetchStep) (a r : Nat) (e : String),
      fetch a = FetchStep.rateLimited e →
        retryGo fetch a (r + 1) =
          ((retryGo fetch (a + 1) r).1, 2 ^ a * 60 :: (retryGo fetch (a + 1) r).2)) ∧
    (∀ (fetch : Nat → FetchStep) (a r : Nat) (e : String),
      fetch a = FetchStep.fail e →
        retryGo fetch a (r + 1) =
          ((retryGo fetch (a + 1) r).1, 2 ^ a :: (retryGo fetch (a + 1) r).2)) ∧
    (∀ (fetch : Nat → FetchStep) (a : Nat) (e : String),
      fetch a = FetchStep.rateLimited e →
        retryGo fetch a 0 = (RetryOutcome.raised (ImpErr.rateLimit e), [])) ∧
    (∀ (fetch : Nat → FetchStep) (a : Nat) (e : String),
      fetch a = FetchStep.fail e →
        retryGo fetch a 0 = (RetryOutcome.raised (ImpErr.other e), [])) ∧
    fetchWithRetry (fun _ => FetchStep.rateLimited msg) 3 =
      (RetryOutcome.raised (ImpErr.rateLimit msg), [60, 120, 240]) ∧
    fetchWithRetry (fun _ => FetchStep.fail msg) 3 =
      (RetryOutcome.raised (ImpErr.other msg), [1, 2, 4]) := by
  refine ⟨?_, ?_, ?_, ?_, ?_, ?_, ?_, ?_⟩
  · simpa using retryGo_rateLimited_persistent msg m 0
  · simpa using retryGo_fail_persistent msg m 0
  · intro fetch a r e h; rw [retryGo, h]
  · intro fetch a r e h; rw [retryGo, h]
  · intro fetch a e h; rw [retryGo, h]
  · intro fetch a e h; rw [retryGo, h]
  · simpa using retryGo_rateLimited_persistent msg 3 0
  · simpa using retryGo_fail_persistent msg 3 0

/-! ## Theorems: sync never propagates exceptions (C5) -/

/-- C5.  Any exception raised during fetch, transform or store inside
sync(full_sync) is caught, counted in the error statistics and converted
into a failure result, never propagating: whenever the result of the
embedded sync has success = false, it carries items_synced = 0 and an error
message, and the importer state records errors + 1 with last_error equal to
that message.  In particular, with max_retries = 0 and a fetch that raises a
generic error, sync returns success = false, items_synced = 0 and the error
message, with zero retries attempted (no sleeps). -/
theorem c5_sync_catches_all :
    (∀ (b : Behavior) (mr : Nat) (st : ImporterState) (fs : Bool) (t0 : ℚ),
      (syncImp b mr st fs t0).1.success = false →
        (syncImp b mr st fs t0).1.items_synced = 0 ∧
        ((syncImp b mr st fs t0).1.error).isSome = true ∧
        (syncImp b mr st fs t0).2.1.errors = st.errors + 1 ∧
        (syncImp b mr st fs t0).2.1.last_error = (syncImp b mr st fs t0).1.error) ∧
    (∀ (b : Behavior) (st : ImporterState) (fs : Bool) (t0 : ℚ) (msg : String),
      b.fetch (syncSince fs st) 0 = FetchStep.fail msg →
        syncImp b 0 st fs t0 =
          ({ success := false, items_synced := 0, message := none,
             error := some msg, transformed_data := none },
           { st with errors := st.errors + 1, last_error := some msg }, [])) := by
  constructor
  · intro b mr st fs t0 hfail
    unfold syncImp at hfail ⊢
    rcases hfr : fetchWithRetry (b.fetch (syncSince fs st)) mr with ⟨out, sleeps⟩
    rw [hfr] at hfail
    cases out with
    | raised e => simp
    | success raw =>
      cases raw with
      | nil => simp at hfail
      | cons x xs =>
        rcases htr : b.transform (x :: xs) with m | items
        · simp [htr]
        · rcases hst : b.store items with m | count
          · simp [htr, hst]
          · simp [htr, hst] at hfail
  · intro b st fs t0 msg h
    unfold syncImp fetchWithRetry
    rw [retryGo, h]
    rfl

/-! ## Theorems: empty fetch short-circuits (C6) -/

/-- C6.  When fetch returns an empty list of items, sync returns the success
result with items_synced = 0 and the message "No new data to sync", leaves
the importer state untouched, and neither transform nor store is invoked:
the result is unchanged under replacing transform and store by arbitrary
functions. -/
theorem c6_empty_fetch (b : Behavior) (mr : Nat) (st : ImporterState)
    (fs : Bool) (t0 : ℚ) (sleeps : List Nat)
    (h : fetchWithRetry (b.fetch (syncSince fs st)) mr =
      (RetryOutcome.success [], sleeps)) :
    syncImp b mr st fs t0 =
      ({ success := true, items_synced := 0,
         message := some "No new data to sync", error := none,
         transformed_data := none }, st, sleeps) ∧
    ∀ (tr : List String → Except String (List Item))
      (sto : List Item → Except String Nat),
      syncImp { b with transform := tr, store := sto } mr st fs t0 =
        syncImp b mr st fs t0 := by
  constructor
  · unfold syncImp
    rw [h]
    simp
  · intro tr sto
    unfold syncImp
    rw [show ({ b with transform := tr, store := sto } : Behavior).fetch = b.fetch from rfl, h]
    simp

def c6Behavior : Behavior :=
  { fetch := fun _ _ => FetchStep.ok [],
    transform := fun _ => Except.ok [],
    store := fun _ => Except.ok 0 }

/-- Witness for C6 at a concrete importer whose fetch returns no items. -/
theorem c6_empty_fetch_witness :
    syncImp c6Behavior 3 initialImporterState false 0 =
      ({ success := true, items_synced := 0,
         message := some "No new data to sync", error := none,
         transformed_data := none }, initialImporterState, []) :=
  (c6_empty_fetch c6Behavior 3 initialImporterState false 0 [] rfl).1

/-! ## ImportedData rows (src/models/imported_data.py, ImportedData)

One persisted row; processed_data is the whole normalized item the
engine stored (the Python code assigns the item dict itself), raw_data
the opaque raw payload.  The created_at / updated_at bookkeeping
columns maintained by the database are not modelled. -/

structure ImportedRow where
  source : String
  data_type : String
  external_id : String
  title : Option String
  description : Option String
  state : Option String
  external_created_at : Option ℚ
  external_updated_at : Option ℚ
  raw_data : Option String
  processed_data : Item
  last_synced_at : ℚ
  sync_version : Nat
deriving DecidableEq, Repr

/-- the (source, external_id) lookup filter of _store_imported_data -/
def isMatch (src eid : String) (r : ImportedRow) : Bool :=
  r.source == src && r.external_id == eid

/-- the update branch of _store_imported_data (sync_engine.py lines 168-176):
overwrite title, description, state, external_updated_at and the processed
snapshot, refresh last_synced_at, increment sync_version; source,
external_id, data_type, external_created_at and raw_data are untouched. -/
def updateRow (now : ℚ) (it : Item) (r : ImportedRow) : ImportedRow :=
  { r with title := it.title, description := it.description,
           state := it.state, external_updated_at := it.updated_at,
           processed_data := it, last_synced_at := now,
           sync_version := r.sync_version + 1 }

/-- the insert branch of _store_imported_data (sync_engine.py lines 178-192):
a new row seeded with both snapshots; sync_version takes the column
default 1 (imported_data.py line 43). -/
def newRow (now : ℚ) (src : String) (it : Item) : ImportedRow :=
  { source := src, data_type := it.data_type, external_id := it.external_id,
    title := it.title, description := it.description, state := it.state,
    external_created_at := it.created_at, external_updated_at := it.updated_at,
    raw_data := it.raw_data, processed_data := it, last_synced_at := now,
    sync_version := 1 }

/-- one item of the _store_imported_data loop: the first row matching
(source, external_id) is updated in place, and when none matches a new
row is appended. -/
def storeItem (now : ℚ) (src : String) (it : Item) :
    List ImportedRow → List ImportedRow
  | [] => [newRow now src it]
  | r :: rest =>
    if isMatch src it.external_id r then updateRow now it r :: rest
    else r :: storeItem now src it rest

/-- SyncEngine._store_imported_data (sync_engine.py lines 152-198): upsert
each item in order against the accumulating table. -/
def storeImportedData (now : ℚ) (src : String) (items : List Item)
    (rows : List ImportedRow) : List ImportedRow :=
  items.foldl (fun acc it => storeItem now src it acc) rows

/-- a sequence of calls to the upsert routine, starting from an empty table:
each call carries its wall-clock time, the service name and the batch. -/
def storeSeq (calls : List (ℚ × String × List Item)) : List ImportedRow :=
  calls.foldl (fun rows c => storeImportedData c.1 c.2.1 c.2.2 rows) []

def rowKey (r : ImportedRow) : String × String := (r.source, r.external_id)

/-- at most one row per (source, external_id) pair -/
def UniqueKeys (rows : List ImportedRow) : Prop := (rows.map rowKey).Nodup

theorem storeItem_keys (now : ℚ) (src : String) (it : Item) :
    ∀ rows : List ImportedRow,
      (storeItem now src it rows).map rowKey =
        if rows.any (isMatch src it.external_id) then rows.map rowKey
        else rows.map rowKey ++ [(src, it.external_id)]
  | [] => rfl
  | r :: rest => by
    by_cases h : isMatch src it.external_id r
    · simp [storeItem, h, updateRow, rowKey]
    · by_cases h2 : rest.any (isMatch src it.external_id)
      · simp [storeItem, h, h2, storeItem_keys now src it rest]
      · simp [storeItem, h, h2, storeItem_keys now src it rest]

theorem storeItem_uniqueKeys (now : ℚ) (src : String) (it : Item)
    (rows : List ImportedRow) (h : UniqueKeys rows) :
    UniqueKeys (storeItem now src it rows) := by
  unfold UniqueKeys
  rw [storeItem_keys]
  by_cases hm : rows.any (isMatch src it.external_id) = true
  · rw [if_pos hm]; exact h
  · rw [if_neg hm]
    rw [List.nodup_append]
    refine ⟨h, List.nodup_singleton _, ?_⟩
    intro k hk hk1
    simp only [List.mem_singleton] at hk1
    subst hk1
    rcases List.mem_map.mp hk with ⟨r, hr, hkey⟩
    have : isMatch src it.external_id r = true := by
      unfold isMatch
      unfold rowKey at hkey
      have h1 : r.source = src := congrArg Prod.fst hkey
      have h2 : r.external_id = it.external_id := congrArg Prod.snd hkey
      simp [h1, h2]
    have hall : ∀ x ∈ rows, ¬(isMatch src it.external_id x = true) := by
      intro x hx hpx
      exact hm (List.any_eq_true.mpr ⟨x, hx, hpx⟩)
    exact hall r hr this

theorem storeImportedData_uniqueKeys (now : ℚ) (src : String)
    (items : List Item) (rows : List ImportedRow) (h : UniqueKeys rows) :
    UniqueKeys (storeImportedData now src items rows) := by
  induction items generalizing rows with
  | nil => simpa [storeImportedData] using h
  | cons it rest ih =>
    simpa [storeImportedData] using
      ih (storeItem now src it rows) (storeItem_uniqueKeys now src it rows h)

theorem storeSeq_uniqueKeys :
    ∀ calls : List (ℚ × String × List Item), UniqueKeys (storeSeq calls) := by
  have main : ∀ (calls : List (ℚ × String × List Item))
      (rows : List ImportedRow), UniqueKeys rows →
      UniqueKeys (calls.foldl
        (fun acc c => storeImportedData c.1 c.2.1 c.2.2 acc) rows) := by
    intro calls
    induction calls with
    | nil => intro rows h; simpa using h
    | cons c rest ih =>
      intro rows h
      exact ih _ (storeImportedData_uniqueKeys c.1 c.2.1 c.2.2 rows h)
  intro calls
  exact main calls [] (by simp [UniqueKeys])

theorem storeItem_absent (now : ℚ) (src : String) (it : Item) :
    ∀ rows : List ImportedRow, rows.any (isMatch src it.external_id) = false →
      storeItem now src it rows = rows ++ [newRow now src it]
  | [], _ => rfl
  | r :: rest, h => by
    simp only [List.any_cons, Bool.or_eq_false_iff] at h
    simp [storeItem, h.1, storeItem_absent now src it rest h.2]

theorem storeItem_present (now : ℚ) (src : String) (it : Item) :
    ∀ rows : List ImportedRow, rows.any (isMatch src it.external_id) = true →
      ∃ l1 r l2, rows = l1 ++ r :: l2 ∧ isMatch src it.external_id r = true ∧
        (∀ x ∈ l1, isMatch src it.external_id x = false) ∧
        storeItem now src it rows = l1 ++ updateRow now it r :: l2
  | r :: rest, h => by
    by_cases h1 : isMatch src it.external_id r
    · exact ⟨[], r, rest, rfl, h1, by simp, by simp [storeItem, h1]⟩
    · have h2 : rest.any (isMatch src it.external_id) = true := by
        simpa [h1] using h
      rcases storeItem_present now src it rest h2 with ⟨l1, q, l2, he, hq, hl1, hst⟩
      refine ⟨r :: l1, q, l2, by simp [he], hq, ?_, ?_⟩
      · intro x hx
        rcases List.mem_cons.mp hx with h3 | h3
        · subst h3; simpa using h1
        · exact hl1 x h3
      · simp [storeItem, h1, hst]

/-- C3.  The upsert routine keeps at most one ImportedData row per
(source, external_id) pair over any sequence of calls; an item whose pair
already has a row updates that row in place (title, description, state,
external_updated_at and the processed snapshot take the new items values,
last_synced_at is refreshed, sync_version is incremented by exactly one,
never decremented), while an absent pair appends a new row with
sync_version = 1; and two sequential single-item calls sharing one
external_id leave exactly one row, carrying sync_version = 2 and the second
items display fields and processed snapshot. -/
theorem c3_upsert_semantics :
    (∀ calls : List (ℚ × String × List Item), UniqueKeys (storeSeq calls)) ∧
    (∀ (now : ℚ) (src : String) (it : Item) (rows : List ImportedRow),
      rows.any (isMatch src it.external_id) = false →
        storeItem now src it rows = rows ++ [newRow now src it]) ∧
    (∀ (now : ℚ) (src : String) (it : Item),
      (newRow now src it).sync_version = 1) ∧
    (∀ (now : ℚ) (src : String) (it : Item) (rows : List ImportedRow),
      rows.any (isMatch src it.external_id) = true →
        ∃ l1 r l2, rows = l1 ++ r :: l2 ∧ isMatch src it.external_id r = true ∧
          storeItem now src it rows = l1 ++ updateRow now it r :: l2) ∧
    (∀ (now : ℚ) (it : Item) (r : ImportedRow),
      (updateRow now it r).sync_version = r.sync_version + 1 ∧
      (updateRow now it r).title = it.title ∧
      (updateRow now it r).description = it.description ∧
      (updateRow now it r).state = it.state ∧
      (updateRow now it r).external_updated_at = it.updated_at ∧
      (updateRow now it r).processed_data = it ∧
      (updateRow now it r).last_synced_at = now ∧
      (updateRow now it r).source = r.source ∧
      (updateRow now it r).external_id = r.external_id) ∧
    (∀ (t1 t2 : ℚ) (src : String) (i1 i2 : Item),
      i1.external_id = i2.external_id →
        storeSeq [(t1, src, [i1]), (t2, src, [i2])] =
          [{ source := src, data_type := i1.data_type,
             external_id := i1.external_id, title := i2.title,
             description := i2.description, state := i2.state,
             external_created_at := i1.created_at,
             external_updated_at := i2.updated_at, raw_data := i1.raw_data,
             processed_data := i2, last_synced_at := t2, sync_version := 2 }]) := by
  refine ⟨storeSeq_uniqueKeys, storeItem_absent, fun _ _ _ => rfl, ?_, ?_, ?_⟩
  · intro now src it rows h
    rcases storeItem_present now src it rows h with ⟨l1, r, l2, he, hq, _, hst⟩
    exact ⟨l1, r, l2, he, hq, hst⟩
  · intro now it r
    exact ⟨rfl, rfl, rfl, rfl, rfl, rfl, rfl, rfl, rfl⟩
  · intro t1 t2 src i1 i2 h
    simp [storeSeq, storeImportedData, storeItem, isMatch, newRow, updateRow, h]

def c3ItemFirst : Item where
  external_id := "LIN-1"
  data_type := "issue"
  title := some "first"
  description := none
  state := some "open"
  created_at := some 0
  updated_at := some 1
  raw_data := some "raw1"

def c3ItemSecond : Item where
  external_id := "LIN-1"
  data_type := "issue"
  title := some "second"
  description := some "changed"
  state := some "closed"
  created_at := some 0
  updated_at := some 2
  raw_data := some "raw2"

def c3RowAfter : ImportedRow where
  source := "linear"
  data_type := "issue"
  external_id := "LIN-1"
  title := some "second"
  description := some "changed"
  state := some "closed"
  external_created_at := some 0
  external_updated_at := some 2
  raw_data := some "raw1"
  processed_data := c3ItemSecond
  last_synced_at := 5
  sync_version := 2

/-- Witness for C3: a concrete two-call upsert of the same external id
leaves one row with sync_version 2, the second items display fields and
processed snapshot, and the first calls raw payload. -/
theorem c3_upsert_semantics_witness :
    storeSeq [(0, "linear", [c3ItemFirst]), (5, "linear", [c3ItemSecond])] =
      [c3RowAfter] :=
  c3_upsert_semantics.2.2.2.2.2 0 5 "linear" c3ItemFirst c3ItemSecond rfl

/-! ## SyncStatus rows (src/models/imported_data.py, SyncStatus)

One row per service; the created_at / updated_at bookkeeping columns are
not modelled.  sync_interval_minutes is an Int, as the Python column is a
plain integer and set_sync_interval validates positivity itself. -/

structure StatusRow where
  service : String
  last_sync_at : Option ℚ
  last_successful_sync_at : Option ℚ
  last_error_at : Option ℚ
  last_error_message : Option String
  total_items_synced : Nat
  total_sync_attempts : Nat
  total_errors : Nat
  sync_enabled : Bool
  sync_interval_minutes : Int
deriving DecidableEq, Repr

/-- the column defaults a freshly created SyncStatus(service=name) row takes
(imported_data.py lines 88-100) -/
def newStatusRow (name : String) : StatusRow :=
  { service := name, last_sync_at := none, last_successful_sync_at := none,
    last_error_at := none, last_error_message := none,
    total_items_synced := 0, total_sync_attempts := 0, total_errors := 0,
    sync_enabled := true, sync_interval_minutes := 60 }

/-- SyncStatus.success_rate (imported_data.py lines 127-132) -/
def success_rate (s : StatusRow) : ℚ :=
  if s.total_sync_attempts = 0 then 0
  else ((s.total_sync_attempts : ℚ) - (s.total_errors : ℚ)) /
    (s.total_sync_attempts : ℚ) * 100

/-- SyncStatus.is_healthy (imported_data.py lines 134-151): sync must be
enabled, the last successful sync at most sync_interval_minutes * 2 minutes
old, and the success rate at least 50 percent. -/
def is_healthy (now : ℚ) (s : StatusRow) : Bool :=
  if s.sync_enabled = false then false
  else
    (match s.last_successful_sync_at with
     | some t => decide ((now - t) / 60 ≤ (s.sync_interval_minutes : ℚ) * 2)
     | none => false) &&
    decide (50 ≤ success_rate s)

/-- C7.  success_rate is (attempts - errors) / attempts * 100, and 0 when
attempts = 0; is_healthy holds exactly when sync_enabled is true, the last
successful sync is at most 2 * sync_interval_minutes minutes before now,
and success_rate is at least 50; hence is_healthy is false whenever
sync_enabled is false, regardless of every other field. -/
theorem c7_success_rate_health :
    (∀ s : StatusRow, s.total_sync_attempts = 0 → success_rate s = 0) ∧
    (∀ s : StatusRow, s.total_sync_attempts ≠ 0 →
      success_rate s = ((s.total_sync_attempts : ℚ) - (s.total_errors : ℚ)) /
        (s.total_sync_attempts : ℚ) * 100) ∧
    (∀ (now : ℚ) (s : StatusRow), is_healthy now s = true ↔
      s.sync_enabled = true ∧
      (∃ t, s.last_successful_sync_at = some t ∧
        (now - t) / 60 ≤ (s.sync_interval_minutes : ℚ) * 2) ∧
      50 ≤ success_rate s) ∧
    (∀ (now : ℚ) (s : StatusRow), s.sync_enabled = false →
      is_healthy now s = false) := by
  refine ⟨fun s h => by simp [success_rate, h],
          fun s h => by simp [success_rate, h], ?_, ?_⟩
  · intro now s
    unfold is_healthy
    rcases hen : s.sync_enabled with _ | _
    · simp [hen]
    · rcases hls : s.last_successful_sync_at with _ | t
      · simp [hls]
      · simp [hls]
  · intro now s h
    simp [is_healthy, h]

def c7Row : StatusRow :=
  { newStatusRow "linear" with
      sync_enabled := false
      last_successful_sync_at := some 0
      total_sync_attempts := 4
      total_errors := 0 }

/-- Witness for C7: a disabled service with perfect statistics and a fresh
successful sync is still unhealthy, and a fresh row has success_rate 0. -/
theorem c7_success_rate_health_witness :
    success_rate (newStatusRow "linear") = 0 ∧ is_healthy 0 c7Row = false :=
  ⟨c7_success_rate_health.1 (newStatusRow "linear") rfl,
   c7_success_rate_health.2.2.2 0 c7Row rfl⟩

/-! ## The engine persistent state: the two tables -/

structure EngineState where
  statuses : List StatusRow
  data : List ImportedRow
deriving DecidableEq, Repr

/-- session.query(SyncStatus).filter_by(service=name).first() -/
def findStatus (name : String) (l : List StatusRow) : Option StatusRow :=
  l.find? fun s => s.service == name

/-- write back a modified status row in place of the first row whose
service is name (the service column is unique, so at most one matches). -/
def setStatus (name : String) (row : StatusRow) :
    List StatusRow → List StatusRow
  | [] => []
  | s :: rest =>
    if s.service == name then row :: rest else s :: setStatus name row rest

/-! ## Administrative operations (sync_engine.py lines 225-258)

Each returns the error it raises (none on success) together with the
state of the store after the call; a raised error leaves the store as
it was, since the Python code mutates nothing before raising. -/

inductive AdminErr where
  | syncErr (msg : String)
  | valueErr (msg : String)
deriving DecidableEq, Repr

/-- SyncEngine.enable_service_sync: set the flag on the existing row, or
raise SyncError when no row for the service exists. -/
def enable_service_sync (st : EngineState) (name : String) (enabled : Bool) :
    Option AdminErr × EngineState :=
  match findStatus name st.statuses with
  | some row =>
    let updated := { row with sync_enabled := enabled }
    (none, { st with statuses := setStatus name updated st.statuses })
  | none =>
    (some (AdminErr.syncErr ("Service " ++ name ++ " not found")), st)

/-- SyncEngine.set_sync_interval: reject a non-positive interval with
ValueError before touching the store, then set the interval on the
existing row, or raise SyncError when no row exists. -/
def set_sync_interval (st : EngineState) (name : String)
    (interval_minutes : Int) : Option AdminErr × EngineState :=
  if interval_minutes ≤ 0 then
    (some (AdminErr.valueErr "Sync interval must be positive"), st)
  else
    match findStatus name st.statuses with
    | some row =>
      let updated := { row with sync_interval_minutes := interval_minutes }
      (none, { st with statuses := setStatus name updated st.statuses })
    | none =>
      (some (AdminErr.syncErr ("Service " ++ name ++ " not found")), st)

theorem setStatus_services (name : String) (row : StatusRow)
    (h : row.service = name) :
    ∀ l : List StatusRow,
      (setStatus name row l).map (fun s => s.service) =
        l.map fun s => s.service
  | [] => rfl
  | s :: rest => by
    by_cases hs : s.service == name
    · simp only [setStatus, hs, if_true, List.map_cons]
      rw [h, eq_of_beq hs]
    · simp [setStatus, hs, setStatus_services name row h rest]

/-- C10.  On a service with no SyncStatus row, enable_service_sync and
set_sync_interval raise SyncError and leave every SyncStatus and
ImportedData row unchanged; set_sync_interval raises ValueError for any
interval_minutes at most 0 before touching the store, whatever its
contents; and in every case neither operation creates or deletes a status
row (the set of service names is preserved) or touches imported data, so a
status row can only come from a sync attempt. -/
theorem c10_admin_ops_unknown_service :
    (∀ (st : EngineState) (name : String) (enabled : Bool),
      findStatus name st.statuses = none →
        enable_service_sync st name enabled =
          (some (AdminErr.syncErr ("Service " ++ name ++ " not found")), st)) ∧
    (∀ (st : EngineState) (name : String) (i : Int), 0 < i →
      findStatus name st.statuses = none →
        set_sync_interval st name i =
          (some (AdminErr.syncErr ("Service " ++ name ++ " not found")), st)) ∧
    (∀ (st : EngineState) (name : String) (i : Int), i ≤ 0 →
      set_sync_interval st name i =
        (some (AdminErr.valueErr "Sync interval must be positive"), st)) ∧
    (∀ (st : EngineState) (name : String) (enabled : Bool),
      ((enable_service_sync st name enabled).2.statuses.map fun s => s.service) =
        (st.statuses.map fun s => s.service) ∧
      (enable_service_sync st name enabled).2.data = st.data) ∧
    (∀ (st : EngineState) (name : String) (i : Int),
      ((set_sync_interval st name i).2.statuses.map fun s => s.service) =
        (st.statuses.map fun s => s.service) ∧
      (set_sync_interval st name i).2.data = st.data) := by
  refine ⟨?_, ?_, ?_, ?_, ?_⟩
  · intro st name enabled h
    simp [enable_service_sync, h]
  · intro st name i hi h
    have : ¬ i ≤ 0 := by omega
    simp [set_sync_interval, this, h]
  · intro st name i hi
    simp [set_sync_interval, hi]
  · intro st name enabled
    unfold enable_service_sync
    rcases h : findStatus name st.statuses with _ | row
    · exact ⟨rfl, rfl⟩
    · have hrow : row.service = name := by
        have := List.find?_some h
        exact eq_of_beq (by simpa using this)
      exact ⟨setStatus_services name { row with sync_enabled := enabled }
        hrow st.statuses, rfl⟩
  · intro st name i
    unfold set_sync_interval
    by_cases hi : i ≤ 0
    · simp [hi]
    · simp only [hi, if_false]
      rcases h : findStatus name st.statuses with _ | row
      · exact ⟨rfl, rfl⟩
      · have hrow : row.service = name := by
          have := List.find?_some h
          exact eq_of_beq (by simpa using this)
        exact ⟨setStatus_services name
          { row with sync_interval_minutes := i } hrow st.statuses, rfl⟩

def c10State : EngineState := { statuses := [newStatusRow "github"], data := [] }

/-- Witness for C10: on a store holding only a github row, touching the
linear service raises SyncError with the store unchanged, and a
non-positive interval raises ValueError. -/
theorem c10_admin_ops_unknown_service_witness :
    enable_service_sync c10State "linear" true =
      (some (AdminErr.syncErr "Service linear not found"), c10State) ∧
    set_sync_interval c10State "linear" 30 =
      (some (AdminErr.syncErr "Service linear not found"), c10State) ∧
    set_sync_interval c10State "github" 0 =
      (some (AdminErr.valueErr "Sync interval must be positive"), c10State) :=
  ⟨c10_admin_ops_unknown_service.1 c10State "linear" true rfl,
   c10_admin_ops_unknown_service.2.1 c10State "linear" 30 (by norm_num) rfl,
   c10_admin_ops_unknown_service.2.2.1 c10State "github" 0 (by norm_num)⟩

/-! ## SyncEngine.get_services_needing_sync (sync_engine.py lines 288-312)

For each constructed importer the status row is looked up; a service with
no row, or a disabled one, is skipped; otherwise it qualifies when it has
never synced (last_sync_at is null) or the elapsed minutes since
last_sync_at reach sync_interval_minutes. -/

def needsSync (now : ℚ) (statuses : List StatusRow) (name : String) : Bool :=
  match findStatus name statuses with
  | none => false
  | some s =>
    if s.sync_enabled = false then false
    else
      match s.last_sync_at with
      | some t => decide ((s.sync_interval_minutes : ℚ) ≤ (now - t) / 60)
      | none => true

def getServicesNeedingSync (now : ℚ) (importers : List String)
    (statuses : List StatusRow) : List String :=
  importers.filter fun n => needsSync now statuses n

/-- Counterexample to C2 as stated: the claim includes a service that has
never synced even when no SyncStatus row exists yet, but the code skips any
service without a row: with one constructed importer and an empty
sync_status table, no row exists for the service and
get_services_needing_sync returns the empty list. -/
theorem c2_counterexample :
    findStatus "linear" ([] : List StatusRow) = none ∧
    getServicesNeedingSync 0 ["linear"] [] = [] :=
  ⟨rfl, rfl⟩

/-- C2 (amended).  get_services_needing_sync includes a constructed
importers name exactly when a SyncStatus row for it exists, that row is
sync-enabled, and either last_sync_at is null (the row exists but the
service has never synced) or the elapsed minutes since last_sync_at are at
least the rows sync_interval_minutes; a service with no status row at all
is not included. -/
theorem c2_needing_sync_characterization (now : ℚ) (importers : List String)
    (statuses : List StatusRow) (name : String) :
    name ∈ getServicesNeedingSync now importers statuses ↔
      name ∈ importers ∧ ∃ s, findStatus name statuses = some s ∧
        s.sync_enabled = true ∧
        (s.last_sync_at = none ∨ ∃ t, s.last_sync_at = some t ∧
          (s.sync_interval_minutes : ℚ) ≤ (now - t) / 60) := by
  rw [getServicesNeedingSync, List.mem_filter]
  refine and_congr_right fun _ => ?_
  unfold needsSync
  rcases h : findStatus name statuses with _ | s
  · simp
  · rcases hen : s.sync_enabled with _ | _
    · simp [hen]
    · rcases hls : s.last_sync_at with _ | t
      · simp [hls]
      · simp [hls, hen]

def c2Row : StatusRow := { newStatusRow "linear" with last_sync_at := some 0 }

/-- Witness for C2 (amended): an enabled service whose last sync is exactly
one interval old is due, and is listed. -/
theorem c2_needing_sync_characterization_witness :
    "linear" ∈ getServicesNeedingSync 3600 ["linear"] [c2Row] :=
  (c2_needing_sync_characterization 3600 ["linear"] [c2Row] "linear").mpr
    ⟨by simp, c2Row, rfl, rfl, Or.inr ⟨0, rfl, by norm_num [c2Row, newStatusRow]⟩⟩

/-! ## SyncEngine.sync_service (sync_engine.py lines 81-150)

Raises SyncError when the name has no constructed importer; otherwise
loads or lazily creates the SyncStatus row, short-circuits when sync is
disabled, records the attempt (total_sync_attempts and last_sync_at)
before invoking the importer, and on a success result stamps
last_successful_sync_at, accumulates total_items_synced and upserts the
result dictionarys transformed_data — when, and only when, the
dictionary carries that key.  A result with success false, or an
exception the importer let escape, updates the error statistics and the
call returns a failure dictionary.  The importers own run is passed as
an `Except`: `Except.error` models an exception escaping importer.sync. -/

/-- the short-circuit dictionary for a disabled service -/
def disabledResult (name : String) : SyncResult where
  success := false
  items_synced := 0
  message := some ("Sync disabled for " ++ name)
  error := none
  transformed_data := none

/-- the failure dictionary the engine builds when importer.sync raises -/
def engineFailureResult (e : String) : SyncResult where
  success := false
  items_synced := 0
  message := none
  error := some e
  transformed_data := none

def syncService (now : ℚ) (importers : List String) (name : String)
    (runImp : Except String SyncResult) (st : EngineState) :
    Except String (SyncResult × EngineState) :=
  if importers.contains name = false then
    Except.error ("Service " ++ name ++ " is not configured")
  else
    let statuses0 := if (findStatus name st.statuses).isSome then st.statuses
                     else st.statuses ++ [newStatusRow name]
    let row := (findStatus name st.statuses).getD (newStatusRow name)
    if row.sync_enabled = false then
      Except.ok (disabledResult name, { st with statuses := statuses0 })
    else
      let row1 := { row with
        total_sync_attempts := row.total_sync_attempts + 1
        last_sync_at := some now }
      match runImp with
      | Except.ok result =>
        if result.success then
          let row2 := { row1 with
            last_successful_sync_at := some now
            total_items_synced := row1.total_items_synced + result.items_synced }
          let data2 := match result.transformed_data with
                       | some items => storeImportedData now name items st.data
                       | none => st.data
          Except.ok (result,
            { statuses := setStatus name row2 statuses0, data := data2 })
        else
          let row2 := { row1 with
            total_errors := row1.total_errors + 1
            last_error_at := some now
            last_error_message := some (result.error.getD "Unknown error") }
          Except.ok (result, { st with statuses := setStatus name row2 statuses0 })
      | Except.error e =>
        let row2 := { row1 with
          total_errors := row1.total_errors + 1
          last_error_at := some now
          last_error_message := some e }
        Except.ok (engineFailureResult e,
          { st with statuses := setStatus name row2 statuses0 })

/-! ## C1: the engine never receives transformed data to upsert

BaseImporter.sync builds its result dictionary with the keys success,
items_synced, duration and message or error only; no code path puts a
transformed_data key in it, and neither concrete importer overrides
sync.  The engine upserts only under `if transformed_data in result`
(sync_engine.py line 127), so the guard is never taken and the items
produced by the transform step are never upserted, although the engines
own comment at line 126 says it stores the synced data in the database
and store_data is an exploration stub whose TODO defers real storage to
the engine. -/

def c1Item : Item where
  external_id := "LIN-9"
  data_type := "issue"
  title := some "an issue"
  description := some "body"
  state := some "open"
  created_at := some 10
  updated_at := some 20
  raw_data := some "raw-payload"

def c1Behavior : Behavior where
  fetch := fun _ _ => FetchStep.ok ["raw-payload"]
  transform := fun _ => Except.ok [c1Item]
  store := fun items => Except.ok items.length

/-- the result dictionary the importer returns for that sync -/
def c1Result : SyncResult where
  success := true
  items_synced := 1
  message := some "Successfully synced 1 items"
  error := none
  transformed_data := none

def c1StatusAfter : StatusRow where
  service := "linear"
  last_sync_at := some 100
  last_successful_sync_at := some 100
  last_error_at := none
  last_error_message := none
  total_items_synced := 1
  total_sync_attempts := 1
  total_errors := 0
  sync_enabled := true
  sync_interval_minutes := 60

/-- C1 fails on the code: a successful sync whose transform step produced
one item returns a result dictionary without a transformed_data key, so
sync_service updates the status row but upserts nothing — the ImportedData
table stays empty — even though the engines upsert routine, had it been
reached with the transformed items, would have stored the row. -/
theorem c1_transformed_data_never_upserted :
    (syncImp c1Behavior 3 initialImporterState false 0).1 = c1Result ∧
    c1Result.success = true ∧
    c1Result.items_synced = 1 ∧
    c1Result.transformed_data = none ∧
    syncService 100 ["linear"] "linear" (Except.ok c1Result)
      { statuses := [], data := [] } =
      Except.ok (c1Result, { statuses := [c1StatusAfter], data := [] }) ∧
    storeImportedData 100 "linear" [c1Item] [] = [newRow 100 "linear" c1Item] := by
  refine ⟨?_, rfl, rfl, rfl, ?_, ?_⟩
  · rfl
  · rfl
  · rfl

/-! ## SyncScheduler._run_scheduler (src/data_import/scheduler.py lines 82-128)

The while loop runs as long as the running flag is set and the stop
event is clear; one iteration either completes its body and performs the
interruptible wait of check_interval seconds, or catches a loop-level
exception and performs the capped wait of min(check_interval, 60)
seconds, and in both cases goes round again.  A trace lists, per
iteration, whether the body raised; a stop entry models the loop
condition observing the cleared flag or the set stop event.  The run
collects the wait performed after each executed iteration: the loop ends
only at a stop entry (or the traces end), never at an exception. -/

inductive LoopEvent where
  | stop
  | iterate (raised : Bool)
deriving DecidableEq, Repr

def schedulerWaits (checkInterval : Nat) : List LoopEvent → List Nat
  | [] => []
  | LoopEvent.stop :: _ => []
  | LoopEvent.iterate raised :: rest =>
    (if raised then min checkInterval 60 else checkInterval) ::
      schedulerWaits checkInterval rest

/-- how many iterations the loop executes before the first stop entry -/
def iterationsBeforeStop : List LoopEvent → Nat
  | [] => 0
  | LoopEvent.stop :: _ => 0
  | LoopEvent.iterate _ :: rest => iterationsBeforeStop rest + 1

/-- C8.  While the running flag is set and no stop signal has arrived, an
iteration whose body raises a loop-level exception performs the capped
wait of min(check_interval, 60) seconds and the loop then continues
exactly as it would on the remaining trace; and over any trace the loop
executes one iteration per trace entry up to the first stop, so an
exception never terminates the loop early. -/
theorem c8_loop_survives_exceptions (checkInterval : Nat)
    (rest : List LoopEvent) :
    schedulerWaits checkInterval (LoopEvent.iterate true :: rest) =
      min checkInterval 60 :: schedulerWaits checkInterval rest ∧
    (∀ events : List LoopEvent,
      (schedulerWaits checkInterval events).length =
        iterationsBeforeStop events) := by
  refine ⟨by simp [schedulerWaits], ?_⟩
  intro events
  induction events with
  | nil => rfl
  | cons e rest ih =>
    cases e with
    | stop => rfl
    | iterate raised => simp [schedulerWaits, iterationsBeforeStop, ih]

/-! ## Configuration (src/data_import/config.py)

ImportConfig with its dataclass defaults; __post_init__ fills each unset
(None or empty) credential from the environment and gives database_url
the sqlite default; validate() collects every violation and raises
ConfigurationError when any exists.  Python truthiness on the optional
strings makes None and the empty string equally missing. -/

structure ImportConfig where
  linear_api_key : Option String
  linear_workspace_id : Option String
  github_token : Option String
  github_org : Option String
  sync_interval_minutes : Int
  max_retries : Int
  timeout_seconds : Int
  database_url : Option String
  log_level : String
  log_file : Option String
deriving DecidableEq, Repr

/-- Python falsiness of an optional string: None or empty -/
def isBlank : Option String → Bool
  | none => true
  | some s => s.isEmpty

/-- the environment variables __post_init__ reads -/
structure Env where
  LINEAR_API_KEY : Option String
  LINEAR_WORKSPACE_ID : Option String
  GITHUB_TOKEN : Option String
  GITHUB_ORG : Option String
  DATABASE_URL : Option String
deriving DecidableEq, Repr

/-- the dataclass field defaults (config.py lines 16-33) -/
def defaultImportConfig : ImportConfig where
  linear_api_key := none
  linear_workspace_id := none
  github_token := none
  github_org := none
  sync_interval_minutes := 60
  max_retries := 3
  timeout_seconds := 30
  database_url := none
  log_level := "INFO"
  log_file := none

/-- ImportConfig.__post_init__ (config.py lines 35-50) -/
def postInit (env : Env) (c : ImportConfig) : ImportConfig :=
  { c with
    linear_api_key :=
      if isBlank c.linear_api_key then env.LINEAR_API_KEY else c.linear_api_key
    linear_workspace_id :=
      if isBlank c.linear_workspace_id then env.LINEAR_WORKSPACE_ID
      else c.linear_workspace_id
    github_token :=
      if isBlank c.github_token then env.GITHUB_TOKEN else c.github_token
    github_org :=
      if isBlank c.github_org then env.GITHUB_ORG else c.github_org
    database_url :=
      if isBlank c.database_url then
        some (env.DATABASE_URL.getD "sqlite:///payment_processor.db")
      else c.database_url }

/-- ImportConfig() as load_config constructs it: defaults, then post-init -/
def mkImportConfig (env : Env) : ImportConfig :=
  postInit env defaultImportConfig

/-- the error list ImportConfig.validate collects (config.py lines 52-69) -/
def validateErrors (c : ImportConfig) : List String :=
  (if isBlank c.database_url then ["Database URL is required"] else []) ++
  (if c.sync_interval_minutes ≤ 0 then ["Sync interval must be positive"] else []) ++
  (if c.max_retries < 0 then ["Max retries cannot be negative"] else []) ++
  (if c.timeout_seconds ≤ 0 then ["Timeout must be positive"] else [])

/-- ImportConfig.validate: raises ConfigurationError when any check fails -/
def validate (c : ImportConfig) : Except String Unit :=
  if (validateErrors c).isEmpty then Except.ok ()
  else Except.error ("Configuration validation failed: " ++
    String.intercalate ", " (validateErrors c))

/-- load_config (config.py lines 100-104): construct, validate, return -/
def load_config (env : Env) : Except String ImportConfig :=
  match validate (mkImportConfig env) with
  | Except.ok _ => Except.ok (mkImportConfig env)
  | Except.error e => Except.error e

/-- ImportConfig.is_service_enabled (config.py lines 90-97) -/
def is_service_enabled (c : ImportConfig) (service : String) : Bool :=
  if service == "linear" then
    !isBlank c.linear_api_key && !isBlank c.linear_workspace_id
  else if service == "github" then
    !isBlank c.github_token && !isBlank c.github_org
  else false

/-- the engine after __init__: its config and the importer names it
constructed (sync_engine.py lines 21-54; a concrete importer whose
construction raises is merely omitted, which only shrinks the list). -/
structure EngineCtx where
  config : ImportConfig
  importers : List String
deriving DecidableEq, Repr

def initEngine (c : ImportConfig) : EngineCtx where
  config := c
  importers :=
    (if is_service_enabled c "linear" then ["linear"] else []) ++
    (if is_service_enabled c "github" then ["github"] else [])

/-- startup through load_config: the engine (and so every importer) is
constructed only after validation succeeded. -/
def startup (env : Env) : Except String EngineCtx :=
  match load_config env with
  | Except.ok c => Except.ok (initEngine c)
  | Except.error e => Except.error e

theorem validateErrors_isEmpty (c : ImportConfig) :
    (validateErrors c).isEmpty = true ↔
      ¬(isBlank c.database_url = true ∨ c.sync_interval_minutes ≤ 0 ∨
        c.max_retries < 0 ∨ c.timeout_seconds ≤ 0) := by
  unfold validateErrors
  by_cases h1 : isBlank c.database_url = true <;>
    by_cases h2 : c.sync_interval_minutes ≤ 0 <;>
      by_cases h3 : c.max_retries < 0 <;>
        by_cases h4 : c.timeout_seconds ≤ 0 <;>
          simp [h1, h2, h3, h4]

theorem validate_error_iff (c : ImportConfig) :
    (∃ e, validate c = Except.error e) ↔
      (isBlank c.database_url = true ∨ c.sync_interval_minutes ≤ 0 ∨
        c.max_retries < 0 ∨ c.timeout_seconds ≤ 0) := by
  unfold validate
  by_cases h : (validateErrors c).isEmpty = true
  · simp only [h, if_true]
    constructor
    · rintro ⟨e, he⟩; cases he
    · intro hbad
      exact absurd hbad ((validateErrors_isEmpty c).mp h)
  · simp only [h, if_false]
    constructor
    · intro _
      by_contra hbad
      exact h ((validateErrors_isEmpty c).mpr hbad)
    · intro _
      exact ⟨_, rfl⟩

/-- C9.  Configuration is validated once at load: validate raises a
configuration error exactly when the resolved database URL is missing,
sync_interval_minutes is non-positive, max_retries is negative, or
timeout_seconds is non-positive; load_config raises exactly when the
configuration it assembled violates one of those conditions; a load
failure reaches the caller before the engine or any importer is
constructed; and whenever startup yields an engine, that engines
configuration passes validation. -/
theorem c9_config_validated_at_load :
    (∀ c : ImportConfig, (∃ e, validate c = Except.error e) ↔
      (isBlank c.database_url = true ∨ c.sync_interval_minutes ≤ 0 ∨
        c.max_retries < 0 ∨ c.timeout_seconds ≤ 0)) ∧
    (∀ env : Env, (∃ e, load_config env = Except.error e) ↔
      (isBlank (mkImportConfig env).database_url = true ∨
        (mkImportConfig env).sync_interval_minutes ≤ 0 ∨
        (mkImportConfig env).max_retries < 0 ∨
        (mkImportConfig env).timeout_seconds ≤ 0)) ∧
    (∀ (env : Env) (e : String), load_config env = Except.error e →
      startup env = Except.error e) ∧
    (∀ (env : Env) (ctx : EngineCtx), startup env = Except.ok ctx →
      validate ctx.config = Except.ok ()) := by
  refine ⟨validate_error_iff, ?_, ?_, ?_⟩
  · intro env
    rw [← validate_error_iff]
    unfold load_config
    rcases h : validate (mkImportConfig env) with e | u
    · constructor
      · intro _; exact ⟨e, rfl⟩
      · intro _; exact ⟨e, rfl⟩
    · constructor
      · rintro ⟨e2, he2⟩
        simp at he2
      · rintro ⟨e2, he2⟩
        simp at he2
  · intro env e h
    unfold startup
    rw [h]
  · intro env ctx h
    unfold startup at h
    rcases hl : load_config env with e | c
    · rw [hl] at h; cases h
    · rw [hl] at h
      cases h
      unfold load_config at hl
      rcases hv : validate (mkImportConfig env) with e2 | u
      · rw [hv] at hl; cases hl
      · rw [hv] at hl
        cases hl
        cases u
        exact hv

def c9EnvBad : Env where
  LINEAR_API_KEY := none
  LINEAR_WORKSPACE_ID := none
  GITHUB_TOKEN := none
  GITHUB_ORG := none
  DATABASE_URL := some ""

def c9EnvGood : Env where
  LINEAR_API_KEY := some "key"
  LINEAR_WORKSPACE_ID := some "ws"
  GITHUB_TOKEN := none
  GITHUB_ORG := none
  DATABASE_URL := none

/-- Witness for C9: an environment with DATABASE_URL set to the empty
string fails the load before any engine exists, and a default environment
yields an engine whose configuration validates. -/
theorem c9_config_validated_at_load_witness :
    (∃ e, load_config c9EnvBad = Except.error e) ∧
    startup c9EnvBad = Except.error
      "Configuration validation failed: Database URL is required" ∧
    validate (initEngine (mkImportConfig c9EnvGood)).config = Except.ok () :=
  ⟨(c9_config_validated_at_load.2.1 c9EnvBad).mpr (Or.inl rfl),
   c9_config_validated_at_load.2.2.1 c9EnvBad _ rfl,
   c9_config_validated_at_load.2.2.2 c9EnvGood _ rfl⟩

end DataImport
